import Mathlib

/-!
Shallow embedding of the NeuroScreen repository (CY570MS/NeuroScreen).

Source files embedded here:
* `phase1/predict_bbb_drugs.py` — the Phase-1 blood-brain-barrier (BBB)
  classifier pipeline: label mapping, stratified train/test split, ensemble
  fit, model persistence, and extraction of the BBB+ candidate CSV.
* `ui/app.py` — the presentation layer's data loading (`load_data`), the
  dashboard's confidence filter and leaderboard, and the candidate
  inspector's per-drug evidence stream.

DataFrames are embedded as Lean lists of typed row structures; pandas
boolean-mask selection becomes `List.filter`, `head n` becomes `List.take`.
Numeric cells are rationals. External library calls (scikit-learn's
`train_test_split` and `RandomForestClassifier`) are modelled from the
spec, as marked on the corresponding definitions.
-/

/-! ## Data model: Phase 1 compound table -/

/-- One row of the B3DB extended classification table, as used by
`phase1/predict_bbb_drugs.py`: the eight metadata columns dropped at
lines 31-34 of the source, plus the residual numeric feature columns. -/
structure CompoundRow where
  compound_name : String
  IUPAC_name : String
  SMILES : String
  /-- The `BBB+/BBB-` label column. -/
  label : String
  Inchi : String
  reference : String
  group : String
  comments : String
  /-- The residual numeric descriptor columns forming the feature vector. -/
  features : List Rat
deriving DecidableEq

/-- A training sample after feature extraction and label mapping:
a feature vector paired with an integer class (1 = BBB+, 0 = BBB-). -/
abbrev Sample := List Rat × Nat

/-! ## Phase 1: candidate extraction (source lines 60-72) -/

/-- `df_ext[df_ext["BBB+/BBB-"] == "BBB+"]` (source line 64): boolean-mask
row selection keeping exactly the rows labeled `BBB+`, in input order. -/
def bbb_positive (df : List CompoundRow) : List CompoundRow :=
  df.filter (fun r => r.label == "BBB+")

/-- `bbb_positive[["compound_name", "SMILES"]]` written by `to_csv`
(source lines 67-70): one `(compound_name, SMILES)` pair per BBB+ row. -/
def final_list (df : List CompoundRow) : List (String × String) :=
  (bbb_positive df).map (fun r => (r.compound_name, r.SMILES))

/-! ## Phase 1: label mapping (source line 37) -/

/-- `df_ext["BBB+/BBB-"].map({"BBB+": 1, "BBB-": 0})` (source line 37):
a pandas dict-map sends any value outside the dict's keys to NaN,
modelled as `none`. -/
def bbbTargetMap (label : String) : Option Nat :=
  if label = "BBB+" then some 1 else if label = "BBB-" then some 0 else none

/-! ## Phase 1: stratified train/test split (source lines 41-43) -/

/-- The `random_state=42` argument fixed at the split and fit call sites
(source lines 42 and 46). -/
def phase1RandomState : Option Nat := some 42

/-- The `test_size=0.2` argument fixed at the split call site (source
line 42). -/
def phase1TestSize : Rat := 0.2

/-- The `n_estimators=200` argument fixed at the classifier construction
(source line 46). -/
def phase1NEstimators : Nat := 200

/-- Ambient process randomness that a library call would consult when no
`random_state` is supplied. The Phase-1 call sites always supply one. -/
structure RunEnv where
  rng : Nat
deriving DecidableEq

/-- The seed a seeded library call actually uses: the caller-specified
`random_state` when present, otherwise the ambient process randomness. -/
def effectiveSeed (random_state : Option Nat) (env : RunEnv) : Nat :=
  random_state.getD env.rng

/-- Modelled from the spec: the seeded shuffle inside a fixed-seed
stratified split is a fixed permutation of each stratum, here a rotation
by the seed. -/
def seededShuffle (seed : Nat) (l : List α) : List α :=
  l.rotate seed

/-- Per-stratum held-out count for `test_size = 0.2`: the ceiling of
`0.2 * n`, i.e. `⌈n/5⌉ = (n+4)/5`. -/
def stratumTestCount (n : Nat) : Nat := (n + 4) / 5

/-- Modelled from the spec: scikit-learn's
`train_test_split(X, y, test_size=0.2, random_state=seed, stratify=y)`
(source lines 41-43), which is not part of this repository. Each class
stratum is shuffled by the fixed seed, its ceiling-of-20% tail is held out
for test, and the remainder is train; the function returns
`(train, test)`. Valid Phase-1 targets are binary (1 = BBB+, 0 = BBB-). -/
def stratifiedSplit02 (seed : Nat) (samples : List Sample) : List Sample × List Sample :=
  let pos := seededShuffle seed (samples.filter (fun s => s.2 == 1))
  let neg := seededShuffle seed (samples.filter (fun s => s.2 == 0))
  let nPos := stratumTestCount pos.length
  let nNeg := stratumTestCount neg.length
  (pos.drop nPos ++ neg.drop nNeg, pos.take nPos ++ neg.take nNeg)

/-! ## Phase 1: model fit and full run (source lines 21-72) -/

/-- Modelled from the spec: a fitted `RandomForestClassifier` with fixed
ensemble size and seed is a deterministic function of its hyperparameters
and training data, so the persisted artifact is represented by exactly
those inputs. -/
structure RFModel where
  n_estimators : Nat
  random_state : Nat
  trainX : List (List Rat)
  trainY : List Nat
deriving DecidableEq

/-- The fatal errors the Phase-1 run can abort with. `invalidLabel` is the
library rejection of NaN targets produced by the dict-map at source
line 37: an unmapped label value aborts the run at the stratified split
(singleton NaN class) or at `fit` (NaN in `y`). -/
inductive Phase1Error where
  | invalidLabel
deriving DecidableEq

/-- The two filesystem writes the Phase-1 run performs, in source order:
`joblib.dump` of the model artifact (line 57), then `to_csv` of the
candidate list (line 70). -/
inductive WriteEvent where
  | modelArtifact
  | candidateCsv
deriving DecidableEq

/-- What a successful Phase-1 run produces: the persisted model artifact
and the rows of the candidate CSV. -/
structure Phase1Output where
  model : RFModel
  csvRows : List (String × String)
deriving DecidableEq

/-- The Phase-1 `main` (source lines 21-72), with an explicit log of the
filesystem writes it performed. Steps in source order: map labels to
targets (line 37, unmapped values become `none`); if any target is `none`
the downstream library calls reject it and the run aborts with no write;
otherwise split (lines 41-43), fit (lines 46-47), write the model
artifact (line 57), extract the BBB+ candidates (lines 64-67) and write
the candidate CSV (line 70). -/
def phase1Run (env : RunEnv) (df : List CompoundRow) :
    List WriteEvent × Except Phase1Error Phase1Output :=
  let y_ext := df.map (fun r => bbbTargetMap r.label)
  if y_ext.all Option.isSome then
    let samples : List Sample :=
      df.map (fun r => (r.features, (bbbTargetMap r.label).getD 0))
    let seed := effectiveSeed phase1RandomState env
    let train := (stratifiedSplit02 seed samples).1
    let model : RFModel :=
      ⟨phase1NEstimators, seed, train.map Prod.fst, train.map Prod.snd⟩
    ([WriteEvent.modelArtifact, WriteEvent.candidateCsv],
     .ok ⟨model, final_list df⟩)
  else
    ([], .error .invalidLabel)

/-! ## Claim C1 -/

/-- Claim C1: Phase-1 candidate extraction selects exactly the rows whose
label equals `BBB+`, emits one `(compound_name, SMILES)` pair per such
row preserving input order, and an all-`BBB+` table yields the pairs of
100% of the input rows in order. -/
theorem c1_candidate_extraction (df : List CompoundRow) :
    final_list df
      = (df.filter (fun r => decide (r.label = "BBB+"))).map
          (fun r => (r.compound_name, r.SMILES)) ∧
    (bbb_positive df).Sublist df ∧
    (∀ r, r ∈ bbb_positive df ↔ r ∈ df ∧ r.label = "BBB+") ∧
    ((∀ r ∈ df, r.label = "BBB+") →
      final_list df = df.map (fun r => (r.compound_name, r.SMILES))) := by
  have hfil : df.filter (fun r => r.label == "BBB+")
      = df.filter (fun r => decide (r.label = "BBB+")) := by
    apply List.filter_congr
    intro r _
    rw [Bool.eq_iff_iff]
    simp [beq_iff_eq]
  refine ⟨by simp [final_list, bbb_positive, hfil], List.filter_sublist df, ?_, ?_⟩
  · intro r
    simp [bbb_positive, List.mem_filter, beq_iff_eq]
  · intro hall
    have : bbb_positive df = df := by
      apply List.filter_eq_self.mpr
      intro r hr
      simp [beq_iff_eq, hall r hr]
    simp [final_list, this]

/-- A two-row compound table in which every row is labeled `BBB+`. -/
def sampleAllPos : List CompoundRow :=
  [⟨"donepezil", "iupacA", "SMI1", "BBB+", "inchiA", "refA", "grpA", "", [(1 : Rat), 2]⟩,
   ⟨"memantine", "iupacB", "SMI2", "BBB+", "inchiB", "refB", "grpB", "", [(3 : Rat), 4]⟩]

/-- Claim C1 witness: on the concrete all-`BBB+` table, the candidate CSV
contains the name/SMILES pairs of every input row in order. -/
theorem c1_candidate_extraction_witness :
    (∀ r ∈ sampleAllPos, r.label = "BBB+") ∧
    final_list sampleAllPos
      = sampleAllPos.map (fun r => (r.compound_name, r.SMILES)) :=
  ⟨by decide, (c1_candidate_extraction sampleAllPos).2.2.2 (by decide)⟩

/-! ## Shared lemmas about the split -/

/-- When every target is binary, the class-1 and class-0 strata together
are a permutation of the sample list. -/
lemma classes_partition_perm (samples : List Sample)
    (h : ∀ s ∈ samples, s.2 = 0 ∨ s.2 = 1) :
    (samples.filter (fun s => s.2 == 1)
      ++ samples.filter (fun s => s.2 == 0)).Perm samples := by
  have hcongr : samples.filter (fun s => s.2 == 0)
      = samples.filter (fun s => !(s.2 == 1)) := by
    apply List.filter_congr
    intro s hs
    rcases h s hs with h0 | h1
    · simp [h0]
    · simp [h1]
  rw [hcongr]
  exact List.filter_append_perm _ samples

lemma stratumTestCount_le (n : Nat) : stratumTestCount n ≤ n := by
  unfold stratumTestCount
  omega

/-! ## Claim C2 -/

/-- Claim C2: the train/test split partitions the rows (train ++ test is a
permutation of the input, hence disjoint subsets whose sizes sum to the
row count), the test fraction is the fixed 0.2 with the fixed seed 42, and
it is stratified: each class contributes exactly the ceiling of 20% of its
rows to test (so the BBB+/BBB- class ratio is preserved within the
rounding tolerance of one row per class, in both subsets). -/
theorem c2_stratified_split (samples : List Sample)
    (h : ∀ s ∈ samples, s.2 = 0 ∨ s.2 = 1) :
    ((stratifiedSplit02 42 samples).1 ++ (stratifiedSplit02 42 samples).2).Perm samples ∧
    (stratifiedSplit02 42 samples).1.length + (stratifiedSplit02 42 samples).2.length
      = samples.length ∧
    phase1TestSize = 1 / 5 ∧
    phase1RandomState = some 42 ∧
    (stratifiedSplit02 42 samples).2.countP (fun s => s.2 == 1)
      = stratumTestCount (samples.countP (fun s => s.2 == 1)) ∧
    (stratifiedSplit02 42 samples).2.countP (fun s => s.2 == 0)
      = stratumTestCount (samples.countP (fun s => s.2 == 0)) ∧
    samples.countP (fun s => s.2 == 1)
      ≤ 5 * stratumTestCount (samples.countP (fun s => s.2 == 1)) ∧
    5 * stratumTestCount (samples.countP (fun s => s.2 == 1))
      ≤ samples.countP (fun s => s.2 == 1) + 4 ∧
    samples.countP (fun s => s.2 == 0)
      ≤ 5 * stratumTestCount (samples.countP (fun s => s.2 == 0)) ∧
    5 * stratumTestCount (samples.countP (fun s => s.2 == 0))
      ≤ samples.countP (fun s => s.2 == 0) + 4 ∧
    (stratifiedSplit02 42 samples).1.countP (fun s => s.2 == 1)
        + (stratifiedSplit02 42 samples).2.countP (fun s => s.2 == 1)
      = samples.countP (fun s => s.2 == 1) ∧
    (stratifiedSplit02 42 samples).1.countP (fun s => s.2 == 0)
        + (stratifiedSplit02 42 samples).2.countP (fun s => s.2 == 0)
      = samples.countP (fun s => s.2 == 0) := by
  have hfst : (stratifiedSplit02 42 samples).1
      = ((samples.filter (fun s => s.2 == 1)).rotate 42).drop
          (stratumTestCount ((samples.filter (fun s => s.2 == 1)).rotate 42).length)
        ++ ((samples.filter (fun s => s.2 == 0)).rotate 42).drop
          (stratumTestCount ((samples.filter (fun s => s.2 == 0)).rotate 42).length) := rfl
  have hsnd : (stratifiedSplit02 42 samples).2
      = ((samples.filter (fun s => s.2 == 1)).rotate 42).take
          (stratumTestCount ((samples.filter (fun s => s.2 == 1)).rotate 42).length)
        ++ ((samples.filter (fun s => s.2 == 0)).rotate 42).take
          (stratumTestCount ((samples.filter (fun s => s.2 == 0)).rotate 42).length) := rfl
  set P := samples.filter (fun s => s.2 == 1) with hPdef
  set N := samples.filter (fun s => s.2 == 0) with hNdef
  set pos := P.rotate 42 with hposdef
  set neg := N.rotate 42 with hnegdef
  set nP := stratumTestCount pos.length with hnPdef
  set nN := stratumTestCount neg.length with hnNdef
  have hposP : pos.Perm P := List.rotate_perm P 42
  have hnegN : neg.Perm N := List.rotate_perm N 42
  have hPN : (P ++ N).Perm samples := classes_partition_perm samples h
  -- the main permutation, via element counts
  have hmain : ((stratifiedSplit02 42 samples).1
      ++ (stratifiedSplit02 42 samples).2).Perm samples := by
    rw [hfst, hsnd, ← Multiset.coe_eq_coe]
    have e1 : (↑(pos.take nP) : Multiset Sample) + ↑(pos.drop nP) = ↑pos := by
      rw [Multiset.coe_add, List.take_append_drop]
    have e2 : (↑(neg.take nN) : Multiset Sample) + ↑(neg.drop nN) = ↑neg := by
      rw [Multiset.coe_add, List.take_append_drop]
    have hP' : (↑pos : Multiset Sample) = ↑P := Multiset.coe_eq_coe.mpr hposP
    have hN' : (↑neg : Multiset Sample) = ↑N := Multiset.coe_eq_coe.mpr hnegN
    have hPN' : (↑P : Multiset Sample) + ↑N = ↑samples := by
      rw [Multiset.coe_add]
      exact Multiset.coe_eq_coe.mpr hPN
    rw [← Multiset.coe_add, ← Multiset.coe_add, ← Multiset.coe_add,
      ← hPN', ← hP', ← hN', ← e1, ← e2]
    abel
  -- per-class counts in the strata
  have hposlen : pos.length = samples.countP (fun s => s.2 == 1) := by
    rw [hposdef, List.length_rotate, hPdef, List.countP_eq_length_filter]
  have hneglen : neg.length = samples.countP (fun s => s.2 == 0) := by
    rw [hnegdef, List.length_rotate, hNdef, List.countP_eq_length_filter]
  have hposmem : ∀ s ∈ pos, s.2 = 1 := by
    intro s hs
    have hsP : s ∈ P := (List.mem_rotate).mp hs
    have := List.of_mem_filter hsP
    simpa using this
  have hnegmem : ∀ s ∈ neg, s.2 = 0 := by
    intro s hs
    have hsN : s ∈ N := (List.mem_rotate).mp hs
    have := List.of_mem_filter hsN
    simpa using this
  have hnPle : nP ≤ pos.length := stratumTestCount_le pos.length
  have hnNle : nN ≤ neg.length := stratumTestCount_le neg.length
  -- test-set class counts
  have htest1 : (stratifiedSplit02 42 samples).2.countP (fun s => s.2 == 1) = nP := by
    rw [hsnd, List.countP_append]
    have hA : (pos.take nP).countP (fun s => s.2 == 1) = (pos.take nP).length := by
      apply List.countP_eq_length.mpr
      intro s hs
      have := hposmem s (List.take_subset _ _ hs)
      simp [this]
    have hB : (neg.take nN).countP (fun s => s.2 == 1) = 0 := by
      apply List.countP_eq_zero.mpr
      intro s hs
      have := hnegmem s (List.take_subset _ _ hs)
      simp [this]
    rw [hA, hB, List.length_take]
    omega
  have htest0 : (stratifiedSplit02 42 samples).2.countP (fun s => s.2 == 0) = nN := by
    rw [hsnd, List.countP_append]
    have hA : (pos.take nP).countP (fun s => s.2 == 0) = 0 := by
      apply List.countP_eq_zero.mpr
      intro s hs
      have := hposmem s (List.take_subset _ _ hs)
      simp [this]
    have hB : (neg.take nN).countP (fun s => s.2 == 0) = (neg.take nN).length := by
      apply List.countP_eq_length.mpr
      intro s hs
      have := hnegmem s (List.take_subset _ _ hs)
      simp [this]
    rw [hA, hB, List.length_take]
    omega
  -- totals preserved by the permutation
  have htot1 : (stratifiedSplit02 42 samples).1.countP (fun s => s.2 == 1)
      + (stratifiedSplit02 42 samples).2.countP (fun s => s.2 == 1)
      = samples.countP (fun s => s.2 == 1) := by
    have h6 := hmain.countP_eq (fun s => s.2 == 1)
    rwa [List.countP_append] at h6
  have htot0 : (stratifiedSplit02 42 samples).1.countP (fun s => s.2 == 0)
      + (stratifiedSplit02 42 samples).2.countP (fun s => s.2 == 0)
      = samples.countP (fun s => s.2 == 0) := by
    have h6 := hmain.countP_eq (fun s => s.2 == 0)
    rwa [List.countP_append] at h6
  have hlen : (stratifiedSplit02 42 samples).1.length
      + (stratifiedSplit02 42 samples).2.length = samples.length := by
    have h6 := hmain.length_eq
    rwa [List.length_append] at h6
  refine ⟨hmain, hlen, by norm_num [phase1TestSize], rfl, ?_, ?_, ?_, ?_, ?_, ?_, htot1, htot0⟩
  · rw [htest1, hnPdef, hposlen]
  · rw [htest0, hnNdef, hneglen]
  · unfold stratumTestCount
    omega
  · unfold stratumTestCount
    omega
  · unfold stratumTestCount
    omega
  · unfold stratumTestCount
    omega

/-- A concrete binary-labeled sample list: three class-1 rows, two class-0
rows. -/
def sampleSplitInput : List Sample :=
  [([(1 : Rat)], 1), ([(2 : Rat)], 1), ([(3 : Rat)], 1),
   ([(4 : Rat)], 0), ([(5 : Rat)], 0)]

/-- Claim C2 witness: the split properties instantiated on the concrete
binary-labeled sample list. -/
theorem c2_stratified_split_witness :
    (∀ s ∈ sampleSplitInput, s.2 = 0 ∨ s.2 = 1) ∧
    (((stratifiedSplit02 42 sampleSplitInput).1
        ++ (stratifiedSplit02 42 sampleSplitInput).2).Perm sampleSplitInput ∧
      (stratifiedSplit02 42 sampleSplitInput).1.length
          + (stratifiedSplit02 42 sampleSplitInput).2.length
        = sampleSplitInput.length) :=
  ⟨by decide,
   ⟨(c2_stratified_split sampleSplitInput (by decide)).1,
    (c2_stratified_split sampleSplitInput (by decide)).2.1⟩⟩

/-! ## Claim C3 -/

/-- Claim C3: a compound table containing a label outside
`{BBB+, BBB-}` makes the Phase-1 run abort with the invalid-label
(data-shape) error; it does not continue to the split, fit, or output
steps. -/
theorem c3_unrecognized_label_fails (env : RunEnv) (df : List CompoundRow)
    (r : CompoundRow) (hr : r ∈ df)
    (h1 : r.label ≠ "BBB+") (h2 : r.label ≠ "BBB-") :
    (phase1Run env df).2 = .error .invalidLabel := by
  have hnone : bbbTargetMap r.label = none := by
    simp [bbbTargetMap, h1, h2]
  cases hb : (df.map (fun r => bbbTargetMap r.label)).all Option.isSome with
  | false => simp [phase1Run, hb]
  | true =>
    exfalso
    have hmem : bbbTargetMap r.label ∈ df.map (fun r => bbbTargetMap r.label) :=
      List.mem_map.mpr ⟨r, hr, rfl⟩
    have := List.all_eq_true.mp hb _ hmem
    rw [hnone] at this
    simp at this

/-- A one-row compound table whose label is outside the recognized set. -/
def badLabelRow : CompoundRow :=
  ⟨"thalidomide", "iupacC", "SMI3", "mislabeled", "inchiC", "refC", "grpC", "",
   [(5 : Rat)]⟩

/-- The compound table holding just the mislabeled row. -/
def badLabelDf : List CompoundRow := [badLabelRow]

/-- Claim C3 witness: on the concrete mislabeled table the Phase-1 run
aborts with the invalid-label error. -/
theorem c3_unrecognized_label_fails_witness :
    (badLabelRow ∈ badLabelDf ∧ badLabelRow.label ≠ "BBB+"
      ∧ badLabelRow.label ≠ "BBB-") ∧
    (phase1Run ⟨0⟩ badLabelDf).2 = .error .invalidLabel :=
  ⟨⟨by decide, by decide, by decide⟩,
   c3_unrecognized_label_fails ⟨0⟩ badLabelDf badLabelRow (by decide)
     (by decide) (by decide)⟩

/-- Holds the `rfl` evaluation of the run on the mislabeled table, shared
by the error-path witnesses. -/
theorem badLabelRun_eval :
    phase1Run ⟨0⟩ badLabelDf = ([], .error .invalidLabel) := rfl

/-! ## Claim C4 -/

/-- Claim C4: whenever the Phase-1 run aborts with a fatal error, its
filesystem write log is empty — neither the model artifact nor the
candidate CSV has been written at the point the error is raised. -/
theorem c4_error_writes_nothing (env : RunEnv) (df : List CompoundRow)
    (e : Phase1Error) (h : (phase1Run env df).2 = .error e) :
    (phase1Run env df).1 = [] := by
  cases hb : (df.map (fun r => bbbTargetMap r.label)).all Option.isSome with
  | false => simp [phase1Run, hb]
  | true => simp [phase1Run, hb] at h

/-- Claim C4 witness: the concrete mislabeled table aborts the run and the
write log is empty. -/
theorem c4_error_writes_nothing_witness :
    (phase1Run ⟨0⟩ badLabelDf).2 = .error .invalidLabel ∧
    (phase1Run ⟨0⟩ badLabelDf).1 = [] :=
  ⟨by rw [badLabelRun_eval],
   c4_error_writes_nothing ⟨0⟩ badLabelDf .invalidLabel (by rw [badLabelRun_eval])⟩

/-! ## Claim C8 -/

/-- Claim C8: the Phase-1 run is a pure, deterministic function of the
input table: the ambient process randomness is never consulted because the
split seed, fit seed, and ensemble size are fixed constants, so any two
runs produce identical splits, identical model artifacts, and identical
candidate CSV rows. -/
theorem c8_run_determinism (df : List CompoundRow) (env1 env2 : RunEnv) :
    phase1Run env1 df = phase1Run env2 df ∧
    (∀ samples : List Sample,
      stratifiedSplit02 (effectiveSeed phase1RandomState env1) samples
        = stratifiedSplit02 (effectiveSeed phase1RandomState env2) samples) :=
  ⟨rfl, fun _ => rfl⟩

/-! ## Data model: presentation layer (`ui/app.py`) -/

/-- One row of `final_ranked_candidates.csv`, the ranked-candidate table
consumed by the dashboard (source `ui/app.py`). -/
structure RankedRow where
  drug_name : String
  final_score : Rat
  phase2_score : Rat
  signed_score : Rat
  n_papers : Nat
  confidence : Rat
  models : String
  net_positive : Int
deriving DecidableEq

/-- One row of `phase3/outputs/phase3_papers.csv`, the evidence table
consumed by the candidate inspector. -/
structure PaperRow where
  drug : String
  title : String
  pub_year : Nat
  model : String
  direction : String
  outcomes : String
deriving DecidableEq

/-- `FINAL_PATH` (source `ui/app.py` line 10). -/
def FINAL_PATH : String := "final_ranked_candidates.csv"

/-- `PAPERS_PATH` (source `ui/app.py` line 11). -/
def PAPERS_PATH : String := "phase3/outputs/phase3_papers.csv"

/-- The filesystem as the presentation layer sees it: the parsed contents
of the two pipeline output files, `none` when the file does not exist. -/
structure FS where
  final : Option (List RankedRow)
  papers : Option (List PaperRow)
deriving DecidableEq

/-- The file reads `load_data` can perform, for the read log. -/
inductive ReadEvent where
  | finalCsv
  | papersCsv
deriving DecidableEq

/-- `load_data` (source `ui/app.py` lines 96-108), with an explicit log of
the reads performed: if `FINAL_PATH` does not exist it returns two empty
tables without touching `PAPERS_PATH`; otherwise it reads the ranked
table, and reads the papers table only if `PAPERS_PATH` exists, else
substitutes an empty table. -/
def load_data (fs : FS) :
    (List RankedRow × List PaperRow) × List ReadEvent :=
  match fs.final with
  | none => (([], []), [])
  | some final_df =>
    match fs.papers with
    | some papers_df => ((final_df, papers_df), [ReadEvent.finalCsv, ReadEvent.papersCsv])
    | none => ((final_df, []), [ReadEvent.finalCsv])

/-- Lower bound of the `Min. Confidence Score` slider
(source `ui/app.py` line 129: `st.slider("Min. Confidence Score", 0.0, 1.0, 0.0)`). -/
def minConfidenceSliderLo : Rat := 0

/-- Upper bound of the `Min. Confidence Score` slider (same call site). -/
def minConfidenceSliderHi : Rat := 1

/-- `filtered_df = final_df[final_df['confidence'] >= min_confidence]`
(source `ui/app.py` line 271). -/
def filtered_df (final_df : List RankedRow) (min_confidence : Rat) : List RankedRow :=
  final_df.filter (fun r => decide (min_confidence ≤ r.confidence))

/-- `leaderboard_df = filtered_df[display_cols].head(top_n)`
(source `ui/app.py` line 319), keeping whole rows in this embedding. -/
def leaderboard_df (final_df : List RankedRow) (min_confidence : Rat)
    (top_n : Nat) : List RankedRow :=
  (filtered_df final_df min_confidence).take top_n

/-- What the Analysis Dashboard page renders (source `ui/app.py`
lines 245-335): the empty-state warning with `st.stop()` when the ranked
table is empty, otherwise the candidate count, the confidence-filtered
landscape table and the truncated leaderboard. -/
inductive DashboardView where
  | emptyState (missingPath : String)
  | rendered (candidatesScreened : Nat) (landscape : List RankedRow)
      (leaderboard : List RankedRow)
deriving DecidableEq

/-- The Analysis Dashboard page as a function of the filesystem and the
two sidebar controls (source `ui/app.py` lines 245-335). -/
def dashboard (fs : FS) (min_confidence : Rat) (top_n : Nat) : DashboardView :=
  let final_df := (load_data fs).1.1
  if final_df.isEmpty then
    .emptyState FINAL_PATH
  else
    .rendered final_df.length (filtered_df final_df min_confidence)
      (leaderboard_df final_df min_confidence top_n)

/-- `drug_papers = papers_df[papers_df["drug"] == selected_drug]`
(source `ui/app.py` line 377): exact-string boolean-mask selection. -/
def drug_papers (papers_df : List PaperRow) (selected_drug : String) : List PaperRow :=
  papers_df.filter (fun r => r.drug == selected_drug)

/-- The evidence display limit: `drug_papers.head(5)` (source `ui/app.py`
line 382). -/
def evidenceDisplayLimit : Nat := 5

/-- The evidence records the Candidate Inspector iterates over:
`drug_papers.head(5)` (source `ui/app.py` line 382). -/
def evidenceStream (papers_df : List PaperRow) (selected_drug : String) : List PaperRow :=
  (drug_papers papers_df selected_drug).take evidenceDisplayLimit

/-- What the evidence panel renders (source `ui/app.py` lines 379-397):
the `st.info` empty-state notice when no rows match, else the evidence
cards for the first five matching rows. -/
inductive EvidenceView where
  | noEntries
  | cards (rows : List PaperRow)
deriving DecidableEq

/-- The Candidate Inspector's evidence panel (source `ui/app.py`
lines 377-397). -/
def inspectorEvidence (papers_df : List PaperRow) (selected_drug : String) : EvidenceView :=
  if (drug_papers papers_df selected_drug).isEmpty then
    .noEntries
  else
    .cards (evidenceStream papers_df selected_drug)

/-- The spec's description of the evidence lookup (§4.4): exact-string
match on the drug name, stored order preserved, truncated to the
requested limit. Stated from the spec's words for comparison with the
source-derived `evidenceStream`. -/
def evidenceLookupSpec (papers : List PaperRow) (name : String) (limit : Nat) :
    List PaperRow :=
  (papers.filter (fun r => decide (r.drug = name))).take limit

/-! ## Claim C5 -/

/-- Claim C5: the evidence lookup returns exactly the records whose `drug`
field equals the queried name by exact string comparison, in stored order
(a sublist of the evidence table), truncated to the first five records —
it coincides with the spec's described lookup at limit 5. -/
theorem c5_evidence_lookup (papers_df : List PaperRow) (selected_drug : String) :
    evidenceStream papers_df selected_drug
      = evidenceLookupSpec papers_df selected_drug evidenceDisplayLimit ∧
    (∀ r ∈ evidenceStream papers_df selected_drug, r.drug = selected_drug) ∧
    (evidenceStream papers_df selected_drug).Sublist papers_df ∧
    (evidenceStream papers_df selected_drug).length ≤ evidenceDisplayLimit := by
  have hfil : papers_df.filter (fun r => r.drug == selected_drug)
      = papers_df.filter (fun r => decide (r.drug = selected_drug)) := by
    apply List.filter_congr
    intro r _
    rw [Bool.eq_iff_iff]
    simp [beq_iff_eq]
  refine ⟨by simp [evidenceStream, drug_papers, evidenceLookupSpec, hfil], ?_, ?_, ?_⟩
  · intro r hr
    have hmem : r ∈ drug_papers papers_df selected_drug :=
      List.take_subset _ _ hr
    have := List.of_mem_filter hmem
    simpa [beq_iff_eq] using this
  · exact ((List.take_sublist _ _).trans (List.filter_sublist _))
  · calc (evidenceStream papers_df selected_drug).length
        ≤ evidenceDisplayLimit := by
          simp [evidenceStream]

/-! ## Claim C6 -/

/-- Claim C6: the loader tolerates either output file being absent: a
missing ranked-candidate file yields two empty tables and the dashboard
degrades to the empty-state message; a missing papers file yields an
empty papers table. -/
theorem c6_missing_files_tolerated (fs : FS) (min_confidence : Rat) (top_n : Nat) :
    (fs.final = none → (load_data fs).1 = ([], [])) ∧
    (fs.papers = none → (load_data fs).1.2 = []) ∧
    (fs.final = none → dashboard fs min_confidence top_n = .emptyState FINAL_PATH) := by
  refine ⟨?_, ?_, ?_⟩
  · intro hf
    simp [load_data, hf]
  · intro hp
    cases hf : fs.final with
    | none => simp [load_data, hf]
    | some fdf => simp [load_data, hf, hp]
  · intro hf
    simp [dashboard, load_data, hf]

/-- A filesystem state where the ranked-candidate file is missing but the
papers file exists with one record. -/
def fsNoFinal : FS :=
  ⟨none, some [⟨"donepezil", "A trial", 2021, "mouse", "positive", "improved"⟩]⟩

/-- Claim C6 witness: with the ranked-candidate file absent (papers file
present), the loader returns empty tables and the dashboard shows the
empty state. -/
theorem c6_missing_files_tolerated_witness :
    (fsNoFinal.final = none) ∧
    (load_data fsNoFinal).1 = ([], []) ∧
    dashboard fsNoFinal 0 15 = .emptyState FINAL_PATH :=
  ⟨rfl, (c6_missing_files_tolerated fsNoFinal 0 15).1 rfl,
   (c6_missing_files_tolerated fsNoFinal 0 15).2.2 rfl⟩

/-! ## Claim C7 -/

/-- Claim C7: a drug with no matching evidence rows yields the empty
evidence sequence and the inspector renders the empty-state notice —
never an error. -/
theorem c7_no_evidence_empty_state (papers_df : List PaperRow) (selected_drug : String)
    (h : ∀ r ∈ papers_df, r.drug ≠ selected_drug) :
    drug_papers papers_df selected_drug = [] ∧
    evidenceStream papers_df selected_drug = [] ∧
    inspectorEvidence papers_df selected_drug = .noEntries := by
  have hempty : drug_papers papers_df selected_drug = [] := by
    apply List.filter_eq_nil_iff.mpr
    intro r hr
    simp [beq_iff_eq]
    exact h r hr
  refine ⟨hempty, ?_, ?_⟩
  · simp [evidenceStream, hempty]
  · simp [inspectorEvidence, hempty]

/-- An evidence table whose only rows belong to other drugs. -/
def samplePapers : List PaperRow :=
  [⟨"galantamine", "Paper one", 2019, "rat", "positive", "better"⟩,
   ⟨"rivastigmine", "Paper two", 2020, "mouse", "negative", "worse"⟩]

/-- Claim C7 witness: querying a drug with no rows in the concrete
evidence table yields the empty stream and the empty-state notice. -/
theorem c7_no_evidence_empty_state_witness :
    (∀ r ∈ samplePapers, r.drug ≠ "donepezil") ∧
    (evidenceStream samplePapers "donepezil" = [] ∧
      inspectorEvidence samplePapers "donepezil" = .noEntries) :=
  ⟨by decide,
   ⟨(c7_no_evidence_empty_state samplePapers "donepezil" (by decide)).2.1,
    (c7_no_evidence_empty_state samplePapers "donepezil" (by decide)).2.2⟩⟩

/-! ## Claim C9 -/

/-- Claim C9: the minimum-confidence slider draws its threshold from
[0.0, 1.0] while `confidence` is a percentage; hence on any table whose
confidence values are all at least 1, the filter keeps every row at every
possible slider setting — the control cannot exclude any candidate with
confidence at least 1 percent. -/
theorem c9_slider_scale_mismatch (final_df : List RankedRow) (t : Rat)
    (_hlo : minConfidenceSliderLo ≤ t) (hhi : t ≤ minConfidenceSliderHi)
    (hconf : ∀ r ∈ final_df, 1 ≤ r.confidence) :
    filtered_df final_df t = final_df := by
  apply List.filter_eq_self.mpr
  intro r hr
  have h1 : t ≤ 1 := by
    simpa [minConfidenceSliderHi] using hhi
  have h2 : (1 : Rat) ≤ r.confidence := hconf r hr
  simp [decide_eq_true_eq]
  exact le_trans h1 h2

/-- A ranked table whose confidence values are ordinary percentages. -/
def sampleRanked : List RankedRow :=
  [⟨"donepezil", 9/10, 8/10, 6/10, 10, 92, "mouse", 5⟩,
   ⟨"memantine", 7/10, 8/10, 6/10, 2, 37, "rat", 1⟩]

/-- Claim C9 witness: at the slider's maximum setting 1.0, the filter
keeps every row of the concrete percentage-valued table. -/
theorem c9_slider_scale_mismatch_witness :
    (minConfidenceSliderLo ≤ (1 : Rat) ∧ (1 : Rat) ≤ minConfidenceSliderHi ∧
      (∀ r ∈ sampleRanked, 1 ≤ r.confidence)) ∧
    filtered_df sampleRanked 1 = sampleRanked :=
  ⟨⟨by norm_num [minConfidenceSliderLo], by norm_num [minConfidenceSliderHi],
    by decide⟩,
   c9_slider_scale_mismatch sampleRanked 1
     (by norm_num [minConfidenceSliderLo]) (by norm_num [minConfidenceSliderHi])
     (by decide)⟩

/-! ## Claim C10 -/

/-- Claim C10: when the ranked-candidate file is absent the loader returns
empty tables for BOTH outputs and performs no read at all — in particular
the papers file is never read, even when it exists on disk. -/
theorem c10_papers_not_read_without_final (fs : FS) (h : fs.final = none) :
    (load_data fs).1 = ([], []) ∧
    (load_data fs).2 = [] ∧
    ReadEvent.papersCsv ∉ (load_data fs).2 := by
  refine ⟨by simp [load_data, h], by simp [load_data, h], by simp [load_data, h]⟩

/-- A filesystem state with the papers file present but the ranked file
absent, distinct from the C6 witness state. -/
def fsPapersOnly : FS :=
  ⟨none, some [⟨"memantine", "Another trial", 2022, "human", "neutral", "no change"⟩]⟩

/-- Claim C10 witness: with the papers file on disk but the ranked file
missing, the loader returns empty tables and logs no read of the papers
file. -/
theorem c10_papers_not_read_without_final_witness :
    (fsPapersOnly.final = none) ∧
    ((load_data fsPapersOnly).1 = ([], []) ∧
      ReadEvent.papersCsv ∉ (load_data fsPapersOnly).2) :=
  ⟨rfl,
   ⟨(c10_papers_not_read_without_final fsPapersOnly rfl).1,
    (c10_papers_not_read_without_final fsPapersOnly rfl).2.2⟩⟩
